import Mathlib

/-!
Shallow embedding of the solarlog_cli library (solarlog_client.py,
solarlog_connector.py, solarlog_models.py, solarlog_exceptions.py).

Numeric (Python float) fields are modelled as rationals; Python dicts as
association lists in insertion order; raised exceptions as explicit result
constructors.  Network transport is modelled by environments that supply the
already-received response bodies; JSON decoding by the external `json`
library is modelled by supplying the decoded values in the environment.
-/

namespace SolarlogCli

/-- Whether `pat` occurs as a contiguous subsequence of `hay`. -/
def listContainsSub (hay pat : List Char) : Bool :=
  match hay with
  | [] => pat.isEmpty
  | _ :: t => pat.isPrefixOf hay || listContainsSub t pat

/-- Models truthiness of Python `text.count(pat)` for a non-empty pattern:
true exactly when `pat` occurs in `s`. -/
def containsSubstr (s pat : String) : Bool :=
  listContainsSub s.data pat.data

/-- Models Python `text.startswith(pat)`. -/
def startsWithStr (s pat : String) : Bool :=
  pat.data.isPrefixOf s.data

/-- Exception taxonomy of solarlog_exceptions.py. -/
inductive SolarLogError where
  | connectionError (msg : String)
  | authenticationError (msg : String)
  | updateError (msg : String)
deriving DecidableEq, Repr

/-- The whole-body query-impossible literal checked by
`Client.parse_http_response` (solarlog_client.py line 166). -/
def queryImpossibleBody : String := "\x7b\"QUERY IMPOSSIBLE 000\"\x7d"

/-- The prefix of a code-550 (salt) response recognised by
`Client.parse_http_response` (solarlog_client.py line 169). -/
def saltResponseStart : String := "\x7b\"550\":\x7b"

/-- Outcome of `Client.parse_http_response`: which classification branch is
taken.  `parseJson` means the body is handed to the external JSON decoder
(whose failure would become an `updateError`). -/
inductive Classification where
  | raiseUpdateError
  | raiseAuthenticationError
  | parseJson
deriving DecidableEq, Repr

/-- `Client.parse_http_response` (solarlog_client.py lines 160-181): the
query-impossible body literal raises `SolarLogUpdateError`; an
"ACCESS DENIED" body that is not a 550-shaped response raises
`SolarLogAuthenticationError`; otherwise the body is JSON-decoded. -/
def parse_http_response (text : String) : Classification :=
  if containsSubstr text queryImpossibleBody then
    Classification.raiseUpdateError
  else if containsSubstr text "ACCESS DENIED" && !(startsWithStr text saltResponseStart) then
    Classification.raiseAuthenticationError
  else
    Classification.parseJson

/-- Python dict insert-or-update `d |= {k: v}`: an existing key keeps its
position and gets the new value, a new key is appended. -/
def dictInsert {α : Type} (d : List (Nat × α)) (k : Nat) (v : α) : List (Nat × α) :=
  if (List.lookup k d).isSome then
    d.map (fun p => if p.1 = k then (k, v) else p)
  else
    d ++ [(k, v)]

/-- `Client.get_energy_per_inverter` (solarlog_client.py lines 237-251) applied
to the innermost array `raw_data["854"][-1][-1]`: every non-zero item is
inserted under the key `data_list.index(item)`, Python's FIRST index at which
the value occurs. -/
def get_energy_per_inverter (data_list : List ℚ) : List (Nat × ℚ) :=
  data_list.foldl
    (fun d item =>
      if item != 0 then dictInsert d (data_list.indexOf item) item else d)
    []

/-- A timezone-aware or naive instant, as produced by
`datetime.strptime(raw_data["100"], "%d.%m.%y %H:%M:%S")`; `tz` is `none`
while the instant is naive, set by the connector's `replace(tzinfo=...)`. -/
structure DateTime where
  year : Nat
  month : Nat
  day : Nat
  hour : Nat
  minute : Nat
  second : Nat
  tz : Option String := none
deriving DecidableEq, Repr

/-- Python strptime %y pivot: two-digit years 00-68 are 20xx, 69-99 are 19xx
(so the device restart default "99" parses to year 1999). -/
def strptimeYear (yy : Nat) : Nat :=
  if yy ≤ 68 then 2000 + yy else 1900 + yy

/-- `InverterData` of solarlog_models.py, with its dataclass defaults. -/
structure InverterData where
  name : String := ""
  enabled : Bool := false
  current_power : Option ℚ := none
  consumption_year : Option ℚ := none
deriving DecidableEq, Repr

/-- `BatteryData` of solarlog_models.py. -/
structure BatteryData where
  charge_power : ℚ := 0
  discharge_power : ℚ := 0
  level : ℚ := 0
  voltage : ℚ := 0
deriving DecidableEq, Repr

/-- `SolarlogData` of solarlog_models.py, with its dataclass defaults for the
calculated and extended fields. -/
structure SolarlogData where
  consumption_ac : ℚ
  consumption_day : ℚ
  consumption_month : ℚ
  consumption_total : ℚ
  consumption_yesterday : ℚ
  consumption_year : ℚ
  last_updated : DateTime
  power_ac : ℚ
  power_dc : ℚ
  total_power : ℚ
  voltage_ac : ℚ
  voltage_dc : ℚ
  yield_day : ℚ
  yield_yesterday : ℚ
  yield_month : ℚ
  yield_year : ℚ
  yield_total : ℚ
  alternator_loss : ℚ := 0
  capacity : Option ℚ := none
  efficiency : Option ℚ := none
  power_available : ℚ := 0
  usage : Option ℚ := none
  battery_data : Option BatteryData := none
  inverter_data : List (Nat × InverterData) := []
  production_year : Option ℚ := none
  self_consumption_year : Option ℚ := none
deriving DecidableEq, Repr

/-- The numeric-keyed payload `raw_data["801"]["170"]` of a basic-data (code
801/170) response, fields named by their JSON codes; the code-100 timestamp
string is given already split into its six numeric components. -/
structure RawBasic where
  date_day : Nat
  date_month : Nat
  date_yy : Nat
  date_hour : Nat
  date_minute : Nat
  date_second : Nat
  k101 : ℚ
  k102 : ℚ
  k103 : ℚ
  k104 : ℚ
  k105 : ℚ
  k106 : ℚ
  k107 : ℚ
  k108 : ℚ
  k109 : ℚ
  k110 : ℚ
  k111 : ℚ
  k112 : ℚ
  k113 : ℚ
  k114 : ℚ
  k115 : ℚ
  k116 : ℚ
deriving DecidableEq, Repr

/-- `Client.get_basic_data` (solarlog_client.py lines 183-212): builds a
`SolarlogData` from the decoded code 801/170 payload; calculated and extended
fields are left at their dataclass defaults. -/
def get_basic_data (r : RawBasic) : SolarlogData :=
  { last_updated :=
      { year := strptimeYear r.date_yy
        month := r.date_month
        day := r.date_day
        hour := r.date_hour
        minute := r.date_minute
        second := r.date_second
        tz := none }
    power_ac := r.k101
    power_dc := r.k102
    voltage_ac := r.k103
    voltage_dc := r.k104
    yield_day := r.k105
    yield_yesterday := r.k106
    yield_month := r.k107
    yield_year := r.k108
    yield_total := r.k109
    consumption_ac := r.k110
    consumption_day := r.k111
    consumption_yesterday := r.k112
    consumption_month := r.k113
    consumption_year := r.k114
    consumption_total := r.k115
    total_power := r.k116 }

/-- An HTTP 200 response as the login flow sees it: its body text and whether
its Set-Cookie carried a "SolarLog" cookie (`response.cookies["SolarLog"]`). -/
structure HttpResponse where
  text : String
  hasSolarLogCookie : Bool
deriving DecidableEq, Repr

/-- Device-side behaviour during one `Client.login` call: the response each
login POST `u=user&p=<p>` would get (keyed by the password value `p` sent),
the response to the code-550 salt query, the salt extracted from it by
`json.loads` / `r_dict.get('550', {}).get('104')` (`none` when the key is
absent), and `bcrypt.hashpw` as an abstract function of password and salt. -/
structure LoginEnv where
  loginResp : String → HttpResponse
  saltResp : HttpResponse
  salt : Option String
  hashpw : String → String → String

/-- Mutable client fields touched by `Client.login`: `self.password` and
`self._hashed_pwd`. -/
structure ClientAuthState where
  password : String
  hashed_pwd : Bool
deriving DecidableEq, Repr

/-- How one `Client.login` call ends: a returned boolean, a raised
`SolarLogAuthenticationError`, or the uncaught `KeyError` from
`response.cookies["SolarLog"]` when the final response has no such cookie. -/
inductive LoginResult where
  | ok (b : Bool)
  | raiseAuthenticationError
  | raiseKeyError
deriving DecidableEq, Repr

/-- The tail of `Client.login` (solarlog_client.py line 114 onward): read the
"SolarLog" cookie of the last-assigned response and return `True`; a missing
cookie raises `KeyError`. -/
def loginCookieStep (resp : HttpResponse) (st : ClientAuthState) :
    LoginResult × ClientAuthState :=
  if resp.hasSolarLogCookie then (LoginResult.ok true, st)
  else (LoginResult.raiseKeyError, st)

/-- `Client.login` (solarlog_client.py lines 63-120).  With an empty password
it returns `False` at once.  Otherwise it posts the plaintext password:
"FAILED - User was wrong" clears the password and returns `False`;
"FAILED - Password was wrong" enters the salt fallback, where a salt that is
present and not "QUERY IMPOSSIBLE 000" triggers a login retry with
`bcrypt.hashpw(password, salt)` (a second "FAILED - Password was wrong"
raises `SolarLogAuthenticationError`, success stores the hashed password),
while a sentinel or absent salt skips the retry; every non-raising path of
the fallback sets `_hashed_pwd` and falls through to the cookie step on the
last-assigned response. -/
def login (env : LoginEnv) (st : ClientAuthState) : LoginResult × ClientAuthState :=
  if st.password = "" then (LoginResult.ok false, st)
  else
    let resp := env.loginResp st.password
    if containsSubstr resp.text "FAILED - User was wrong" then
      (LoginResult.ok false, { st with password := "" })
    else if containsSubstr resp.text "FAILED - Password was wrong" then
      match env.salt with
      | some salt =>
        if salt ≠ "QUERY IMPOSSIBLE 000" then
          let hashed := env.hashpw st.password salt
          let resp2 := env.loginResp hashed
          if containsSubstr resp2.text "FAILED - Password was wrong" then
            (LoginResult.raiseAuthenticationError, st)
          else
            loginCookieStep resp2 { password := hashed, hashed_pwd := true }
        else
          loginCookieStep env.saltResp { st with hashed_pwd := true }
      | none => loginCookieStep env.saltResp { st with hashed_pwd := true }
    else
      loginCookieStep resp st

/-- Mutable `SolarLogConnector` fields the claims touch: `self.extended_data`,
`self._device_list` (insertion-ordered dict), and the configured timezone
name (`""` models `timezone.utc`). -/
structure ConnState where
  extended_data : Bool
  device_list : List (Nat × InverterData)
  tz : String := ""
deriving DecidableEq, Repr

/-- `SolarLogConnector.device` (solarlog_connector.py lines 190-192):
`self._device_list.get(device_id, InverterData())`. -/
def device (st : ConnState) (device_id : Nat) : InverterData :=
  (List.lookup device_id st.device_list).getD {}

/-- `SolarLogConnector.device_name` (solarlog_connector.py lines 194-198):
`self._device_list.get(device_id, InverterData()).name`. -/
def device_name (st : ConnState) (device_id : Nat) : String :=
  ((List.lookup device_id st.device_list).getD {}).name

/-- Outcome of `SolarLogConnector.device_enabled`: the whole enabled map when
no id is given, one flag, or the uncaught `KeyError` of
`self._device_list[device_id]` on an unknown id. -/
inductive DeviceEnabledResult where
  | all (m : List (Nat × Bool))
  | one (b : Bool)
  | raiseKeyError
deriving DecidableEq, Repr

/-- `SolarLogConnector.device_enabled` (solarlog_connector.py lines 200-206):
without an id it returns the id → enabled map; with an id it subscripts
`self._device_list[device_id]` directly, so an unknown id raises `KeyError`. -/
def device_enabled (st : ConnState) (device_id : Option Nat) : DeviceEnabledResult :=
  match device_id with
  | none => DeviceEnabledResult.all (st.device_list.map fun p => (p.1, p.2.enabled))
  | some i =>
    match List.lookup i st.device_list with
    | some d => DeviceEnabledResult.one d.enabled
    | none => DeviceEnabledResult.raiseKeyError

/-- `SolarLogConnector.update_device_list` (solarlog_connector.py lines
142-155) applied to the already-fetched device directory (id, name) pairs:
without extended data it returns an empty dict and leaves the cached list
alone; otherwise it REPLACES `self._device_list` by a dict built solely from
the fetched directory, each entry taking `enabled` from
`self.device(key).enabled`. -/
def update_device_list (devices : List (Nat × String)) (st : ConnState) :
    List (Nat × InverterData) × ConnState :=
  if st.extended_data = false then ([], st)
  else
    let dl := devices.map fun kv =>
      (kv.1, { name := kv.2, enabled := (device st kv.1).enabled : InverterData })
    (dl, { st with device_list := dl })

/-- `SolarLogConnector.set_enabled_devices` (solarlog_connector.py lines
208-214): merge caller flags, creating unknown ids with just the flag. -/
def set_enabled_devices (device_enabled_map : List (Nat × Bool)) (st : ConnState) :
    ConnState :=
  { st with
    device_list :=
      device_enabled_map.foldl
        (fun dl kv =>
          match List.lookup kv.1 dl with
          | none => dl ++ [(kv.1, { enabled := kv.2 : InverterData })]
          | some _ =>
            dl.map fun p =>
              if p.1 = kv.1 then (p.1, { p.2 with enabled := kv.2 }) else p)
        st.device_list }

/-- `Client.get_energy` (solarlog_client.py lines 253-264) applied to the
decoded code-878 value: `none` models the "QUERY IMPOSSIBLE 000" value, the
pair models `(raw_data["878"][-1][1], raw_data["878"][-1][3])`. -/
def get_energy (resp : Option (ℚ × ℚ)) (data : SolarlogData) : SolarlogData :=
  match resp with
  | some pr =>
    { data with production_year := some pr.1, self_consumption_year := some pr.2 }
  | none => data

/-- `SolarLogConnector.update_battery_data` (solarlog_connector.py lines
123-140) applied to the decoded code-858 array: empty means no battery;
otherwise the first four entries map positionally. -/
def update_battery_data (raw : List ℚ) : Option BatteryData :=
  if raw = [] then none
  else
    some
      { voltage := raw.getD 0 0
        level := raw.getD 1 0
        charge_power := raw.getD 2 0
        discharge_power := raw.getD 3 0 }

/-- The `self._device_list.get(key, InverterData).enabled` guard of
`SolarLogConnector.update_inverter_data`: a missing key falls back to the
dataclass default `enabled = False`. -/
def lookupEnabled (dl : List (Nat × InverterData)) (k : Nat) : Bool :=
  match List.lookup k dl with
  | some d => d.enabled
  | none => false

/-- `SolarLogConnector.update_inverter_data` (solarlog_connector.py lines
157-173) applied to the fetched per-inverter power dict and the code-854
energy array: each enabled device present in the power dict gets
`current_power`, then each enabled device keyed by
`Client.get_energy_per_inverter` gets `consumption_year`. -/
def update_inverter_data (power : List (Nat × ℚ)) (energyList : List ℚ)
    (dl : List (Nat × InverterData)) : List (Nat × InverterData) :=
  let dl :=
    power.foldl
      (fun dl kv =>
        if lookupEnabled dl kv.1 then
          dl.map fun p =>
            if p.1 = kv.1 then (p.1, { p.2 with current_power := some kv.2 }) else p
        else dl)
      dl
  (get_energy_per_inverter energyList).foldl
    (fun dl kv =>
      if lookupEnabled dl kv.1 then
        dl.map fun p =>
          if p.1 = kv.1 then (p.1, { p.2 with consumption_year := some kv.2 }) else p
      else dl)
    dl

/-- The derived-metrics block of `SolarLogConnector.update_data`
(solarlog_connector.py lines 107-118), statement by statement. -/
def derived_metrics (data : SolarlogData) : SolarlogData :=
  let data := { data with alternator_loss := data.power_dc - data.power_ac }
  let data :=
    if data.power_dc ≠ 0 then
      { data with efficiency := some (data.power_ac / data.power_dc * 100) }
    else data
  let data :=
    if data.power_ac ≠ 0 then
      { data with
        usage := some (data.consumption_ac / data.power_ac * 100)
        power_available := data.power_ac - data.consumption_ac }
    else { data with usage := some 0, power_available := 0 }
  if data.total_power ≠ 0 then
    { data with capacity := some (data.power_dc / data.total_power * 100) }
  else data

/-- One HTTP query the connector may issue during `update_data`, after the
initial basic-data query. -/
inductive Request where
  | basicData
  | energy
  | powerPerInverter
  | energyPerInverter
  | batteryData
deriving DecidableEq, Repr

/-- Device-side behaviour during one `SolarLogConnector.update_data` call:
the decoded basic-data payload and the decoded payloads each further fetch
would return. -/
structure UpdateEnv where
  basicRaw : RawBasic
  energyResp : Option (ℚ × ℚ)
  powerPerInv : List (Nat × ℚ)
  energyPerInvList : List ℚ
  batteryRaw : List ℚ

/-- `SolarLogConnector.update_data` (solarlog_connector.py lines 84-120),
also returning the list of queries issued and the final connector state.  A
basic-data timestamp in year 1999 raises `SolarLogUpdateError` before any
further fetch; otherwise the configured timezone is attached, the extended
fetches run when enabled (per-inverter ones only for a non-empty device
list), and the derived metrics are computed last. -/
def update_data (env : UpdateEnv) (st : ConnState) :
    Except SolarLogError SolarlogData × List Request × ConnState :=
  let data := get_basic_data env.basicRaw
  if data.last_updated.year = 1999 then
    (Except.error
        (SolarLogError.updateError
          "Invalid data returned (can happen after Solarlog restart)."),
      [Request.basicData], st)
  else
    let data :=
      { data with
        last_updated :=
          { data.last_updated with
            tz := some (if st.tz = "" then "UTC" else st.tz) } }
    let step :=
      if st.extended_data then
        let data := get_energy env.energyResp data
        let invStep :=
          if st.device_list ≠ [] then
            let dl :=
              update_inverter_data env.powerPerInv env.energyPerInvList
                st.device_list
            ({ data with inverter_data := dl },
              [Request.powerPerInverter, Request.energyPerInverter],
              { st with device_list := dl })
          else (data, ([] : List Request), st)
        ({ invStep.1 with battery_data := update_battery_data env.batteryRaw },
          [Request.energy] ++ invStep.2.1 ++ [Request.batteryData],
          invStep.2.2)
      else (data, ([] : List Request), st)
    (Except.ok (derived_metrics step.1), Request.basicData :: step.2.1, step.2.2)

/-- Session-ownership fields of `Client.__init__` and `Client.close`:
whether the current session object was supplied by the caller, whether a
session exists, and `self._close_session`. -/
structure ClientSessionState where
  sessionBorrowed : Bool
  hasSession : Bool
  close_session : Bool
deriving DecidableEq, Repr

/-- `Client.__init__` (solarlog_client.py lines 31-43): a missing session is
replaced by a freshly created one, a supplied one is kept, and
`self._close_session` is set to `True` unconditionally. -/
def clientInit (callerSuppliedSession : Bool) : ClientSessionState :=
  { sessionBorrowed := callerSuppliedSession
    hasSession := true
    close_session := true }

/-- `Client.close` (solarlog_client.py lines 289-292): returns whether
`self.session.close()` is awaited, i.e. whether a session exists and
`self._close_session` holds. -/
def close (c : ClientSessionState) : Bool :=
  c.hasSession && c.close_session

/-! Concrete device behaviours used to instantiate the theorems below. -/

/-- A device that answers every login attempt with "FAILED - User was wrong". -/
def loginEnvUserWrong : LoginEnv :=
  { loginResp := fun _ =>
      { text := "FAILED - User was wrong", hasSolarLogCookie := false }
    saltResp := { text := "", hasSolarLogCookie := false }
    salt := none
    hashpw := fun p _ => p }

/-- A device that rejects the plaintext password and whose code-550 query
yields the "QUERY IMPOSSIBLE 000" salt sentinel (and no session cookie). -/
def loginEnvSaltSentinel : LoginEnv :=
  { loginResp := fun _ =>
      { text := "FAILED - Password was wrong", hasSolarLogCookie := false }
    saltResp := { text := "", hasSolarLogCookie := false }
    salt := some "QUERY IMPOSSIBLE 000"
    hashpw := fun p s => s ++ p }

/-- A device that rejects the plaintext password and the hashed retry. -/
def loginEnvHashedFail : LoginEnv :=
  { loginResp := fun _ =>
      { text := "FAILED - Password was wrong", hasSolarLogCookie := false }
    saltResp := { text := "", hasSolarLogCookie := false }
    salt := some "abcd"
    hashpw := fun p s => s ++ p }

/-- A device that rejects the plaintext password "pwd" but accepts the salted
hash, answering with the session cookie. -/
def loginEnvHashedOk : LoginEnv :=
  { loginResp := fun p =>
      if p = "pwd" then
        { text := "FAILED - Password was wrong", hasSolarLogCookie := false }
      else
        { text := "SUCCESS - Password was correct, you are now logged in",
          hasSolarLogCookie := true }
    saltResp := { text := "", hasSolarLogCookie := false }
    salt := some "salt"
    hashpw := fun p s => s ++ p }

/-- A valid basic-data payload dated 12.10.25 with 200 W AC, 250 W DC, 50 W
consumption and 1000 Wp installed. -/
def rawBasicSample : RawBasic :=
  { date_day := 12, date_month := 10, date_yy := 25
    date_hour := 9, date_minute := 30, date_second := 0
    k101 := 200, k102 := 250, k103 := 230, k104 := 600
    k105 := 1, k106 := 2, k107 := 3, k108 := 4, k109 := 5
    k110 := 50, k111 := 6, k112 := 7, k113 := 8, k114 := 9, k115 := 10
    k116 := 1000 }

/-- A basic-data payload carrying the device restart timestamp 01.01.99. -/
def rawBasicRestart : RawBasic :=
  { date_day := 1, date_month := 1, date_yy := 99
    date_hour := 0, date_minute := 0, date_second := 0
    k101 := 0, k102 := 0, k103 := 0, k104 := 0
    k105 := 0, k106 := 0, k107 := 0, k108 := 0, k109 := 0
    k110 := 0, k111 := 0, k112 := 0, k113 := 0, k114 := 0, k115 := 0
    k116 := 0 }

/-- A full poll behaviour around `rawBasicSample`. -/
def updateEnvSample : UpdateEnv :=
  { basicRaw := rawBasicSample
    energyResp := some (1500, 700)
    powerPerInv := [(0, 100)]
    energyPerInvList := [0, 3]
    batteryRaw := [48, 80, 5, 2] }

/-- A poll behaviour whose basic data is the restart payload. -/
def updateEnvRestart : UpdateEnv :=
  { basicRaw := rawBasicRestart
    energyResp := none
    powerPerInv := []
    energyPerInvList := []
    batteryRaw := [] }

/-- A connector state with extended data and one enabled device. -/
def connSample : ConnState :=
  { extended_data := true
    device_list := [(0, { name := "Inv 1", enabled := true })]
    tz := "" }

/-- A connector state knowing device 3 as enabled. -/
def connDev3 : ConnState :=
  { extended_data := true
    device_list := [(3, { name := "Inv 3", enabled := true })]
    tz := "" }

/-- A connector state knowing only device 1, named and enabled. -/
def connDev1 : ConnState :=
  { extended_data := true
    device_list := [(1, { name := "Inv A", enabled := true })]
    tz := "" }

/-! Theorems settling the claims. -/

/-- C6 (counterexample): a code-550-shaped response body that contains the
query-impossible literal is still classified as raising
`SolarLogUpdateError` — `parse_http_response` has no salt-query exemption on
that branch (its 550 exemption concerns only "ACCESS DENIED"), refuting the
claimed exception for the salt-challenge query. -/
theorem C6_counterexample :
    startsWithStr "\x7b\"550\":\x7b\"QUERY IMPOSSIBLE 000\"\x7d\x7d" saltResponseStart = true ∧
    containsSubstr "\x7b\"550\":\x7b\"QUERY IMPOSSIBLE 000\"\x7d\x7d" queryImpossibleBody = true ∧
    parse_http_response "\x7b\"550\":\x7b\"QUERY IMPOSSIBLE 000\"\x7d\x7d" =
      Classification.raiseUpdateError := by
  decide

/-- C6 (amended): every response body containing the query-impossible literal
is classified by `parse_http_response` as raising `SolarLogUpdateError`,
with no exemption for the salt-challenge query; the salt flow avoids this
only by never routing its response through the classifier. -/
theorem C6_query_impossible_always_update_error (text : String)
    (h : containsSubstr text queryImpossibleBody = true) :
    parse_http_response text = Classification.raiseUpdateError := by
  simp [parse_http_response, h]

/-- C6 (witness): the bare query-impossible body instantiates the amended
theorem. -/
theorem C6_witness :
    containsSubstr "\x7b\"QUERY IMPOSSIBLE 000\"\x7d" queryImpossibleBody = true ∧
    parse_http_response "\x7b\"QUERY IMPOSSIBLE 000\"\x7d" =
      Classification.raiseUpdateError :=
  ⟨by decide, C6_query_impossible_always_update_error _ (by decide)⟩

/-- C7 (code-bug evaluation): on the yearly-energy array [5, 5] the code keys
each non-zero entry by `data_list.index(item)`, the index of the FIRST
occurrence of the value, so both entries collapse onto key 0 and position 1
never becomes a key — contradicting keying each entry by its own index. -/
theorem C7_first_index_collision :
    get_energy_per_inverter [5, 5] = [(0, 5)] ∧
    List.lookup 1 (get_energy_per_inverter [5, 5]) = none ∧
    get_energy_per_inverter [0, 3, 0, 7] = [(1, 3), (3, 7)] := by
  decide

/-- C8 (counterexample): a client built around a caller-supplied session
still has `_close_session = True` (set unconditionally by `__init__`), so
`close()` closes the borrowed session instead of being a no-op. -/
theorem C8_counterexample :
    (clientInit true).sessionBorrowed = true ∧ close (clientInit true) = true := by
  decide

/-- C8 (amended): `close()` closes the session whether the client created it
or the caller supplied it: `__init__` sets `_close_session` to `True` in
both cases, and the test suite asserts a caller-supplied session ends up
closed. -/
theorem C8_close_always_closes (callerSuppliedSession : Bool) :
    close (clientInit callerSuppliedSession) = true := by
  rfl

/-- C10: for an id absent from the device list, `device` returns the default
record and `device_name` the empty string without raising, while
`device_enabled` subscripts the dict directly and raises `KeyError` — the
accessor family is not uniformly total over unknown ids. -/
theorem C10_accessor_family_not_uniform (st : ConnState) (i : Nat)
    (h : List.lookup i st.device_list = none) :
    device st i = {} ∧ device_name st i = "" ∧
    device_enabled st (some i) = DeviceEnabledResult.raiseKeyError := by
  refine ⟨?_, ?_, ?_⟩ <;> simp [device, device_name, device_enabled, h]

/-- C10 (witness): id 0 is unknown to `connDev1`, so `device` and
`device_name` return defaults while `device_enabled` raises `KeyError`. -/
theorem C10_witness :
    List.lookup 0 connDev1.device_list = none ∧
    (device connDev1 0 = {} ∧ device_name connDev1 0 = "" ∧
      device_enabled connDev1 (some 0) = DeviceEnabledResult.raiseKeyError) :=
  ⟨by decide, C10_accessor_family_not_uniform connDev1 0 (by decide)⟩

/-- C9: with no password configured `login` is a no-op returning `False`;
and a login response containing "FAILED - User was wrong" makes `login`
clear the stored password and return `False`. -/
theorem C9_no_password_and_user_wrong (env : LoginEnv) (st : ClientAuthState) :
    (st.password = "" → login env st = (LoginResult.ok false, st)) ∧
    (st.password ≠ "" →
      containsSubstr (env.loginResp st.password).text "FAILED - User was wrong" = true →
      login env st = (LoginResult.ok false, { st with password := "" })) := by
  constructor
  · intro h
    simp [login, h]
  · intro h hw
    simp [login, h, hw]

/-- C9 (witness): instantiated both with an empty password and with a device
answering "FAILED - User was wrong". -/
theorem C9_witness :
    login loginEnvUserWrong { password := "", hashed_pwd := false } =
      (LoginResult.ok false, { password := "", hashed_pwd := false }) ∧
    login loginEnvUserWrong { password := "pwd", hashed_pwd := false } =
      (LoginResult.ok false, { password := "", hashed_pwd := false }) :=
  ⟨(C9_no_password_and_user_wrong loginEnvUserWrong
      { password := "", hashed_pwd := false }).1 rfl,
    (C9_no_password_and_user_wrong loginEnvUserWrong
      { password := "pwd", hashed_pwd := false }).2 (by decide) (by decide)⟩

/-- C3 (counterexample): with the code-550 salt being the
"QUERY IMPOSSIBLE 000" sentinel, `login` does NOT raise
`SolarLogAuthenticationError`: it skips the hashed retry and proceeds to the
cookie step on the salt response, here ending in the uncaught `KeyError`. -/
theorem C3_counterexample :
    loginEnvSaltSentinel.salt = some "QUERY IMPOSSIBLE 000" ∧
    (login loginEnvSaltSentinel { password := "pwd", hashed_pwd := false }).1 ≠
      LoginResult.raiseAuthenticationError ∧
    login loginEnvSaltSentinel { password := "pwd", hashed_pwd := false } =
      (LoginResult.raiseKeyError, { password := "pwd", hashed_pwd := true }) := by
  decide

/-- C3 (amended): when the first login response reports a wrong password and
the code-550 salt is the query-impossible sentinel or absent, `login` treats
the condition as neither an error nor a retry trigger: it skips the hashed
retry without raising `SolarLogAuthenticationError`, sets the hashed-password
flag, and falls through to reading the "SolarLog" cookie of the salt
response (returning `True` if present, raising `KeyError` otherwise). -/
theorem C3_salt_sentinel_skips_retry (env : LoginEnv) (st : ClientAuthState)
    (hp : st.password ≠ "")
    (hu : containsSubstr (env.loginResp st.password).text
        "FAILED - User was wrong" = false)
    (hw : containsSubstr (env.loginResp st.password).text
        "FAILED - Password was wrong" = true)
    (hs : env.salt = none ∨ env.salt = some "QUERY IMPOSSIBLE 000") :
    login env st = loginCookieStep env.saltResp { st with hashed_pwd := true } ∧
    (login env st).1 ≠ LoginResult.raiseAuthenticationError := by
  have key : login env st = loginCookieStep env.saltResp { st with hashed_pwd := true } := by
    rcases hs with h | h <;> simp [login, hp, hu, hw, h]
  refine ⟨key, ?_⟩
  rw [key]
  unfold loginCookieStep
  split <;> simp

/-- C3 (witness): the amended theorem instantiated on the sentinel device. -/
theorem C3_witness :
    login loginEnvSaltSentinel { password := "pwd", hashed_pwd := false } =
      loginCookieStep loginEnvSaltSentinel.saltResp
        { password := "pwd", hashed_pwd := true } ∧
    (login loginEnvSaltSentinel { password := "pwd", hashed_pwd := false }).1 ≠
      LoginResult.raiseAuthenticationError :=
  C3_salt_sentinel_skips_retry loginEnvSaltSentinel
    { password := "pwd", hashed_pwd := false }
    (by decide) (by decide) (by decide) (Or.inr rfl)

/-- C5: in the salted-hash fallback with a usable salt, a hashed retry again
answered "FAILED - Password was wrong" raises `SolarLogAuthenticationError`
(stored password unchanged); an accepted retry — whose success response
carries the "SolarLog" session cookie — replaces the stored password by the
hashed value and returns `True`. -/
theorem C5_hashed_retry_outcome (env : LoginEnv) (st : ClientAuthState)
    (hp : st.password ≠ "")
    (hu : containsSubstr (env.loginResp st.password).text
        "FAILED - User was wrong" = false)
    (hw : containsSubstr (env.loginResp st.password).text
        "FAILED - Password was wrong" = true)
    (s : String) (hs : env.salt = some s) (hsv : s ≠ "QUERY IMPOSSIBLE 000") :
    (containsSubstr (env.loginResp (env.hashpw st.password s)).text
        "FAILED - Password was wrong" = true →
      login env st = (LoginResult.raiseAuthenticationError, st)) ∧
    (containsSubstr (env.loginResp (env.hashpw st.password s)).text
        "FAILED - Password was wrong" = false →
      (env.loginResp (env.hashpw st.password s)).hasSolarLogCookie = true →
      login env st =
        (LoginResult.ok true,
          { password := env.hashpw st.password s, hashed_pwd := true })) := by
  constructor
  · intro h2
    simp [login, hp, hu, hw, hs, hsv, h2]
  · intro h2 hc
    simp [login, loginCookieStep, hp, hu, hw, hs, hsv, h2, hc]

/-- C5 (witness): instantiated on a device rejecting the hashed retry (raises
the authentication error) and on one accepting it (password replaced by the
hash, `True` returned). -/
theorem C5_witness :
    login loginEnvHashedFail { password := "pwd", hashed_pwd := false } =
      (LoginResult.raiseAuthenticationError, { password := "pwd", hashed_pwd := false }) ∧
    login loginEnvHashedOk { password := "pwd", hashed_pwd := false } =
      (LoginResult.ok true,
        { password := loginEnvHashedOk.hashpw "pwd" "salt", hashed_pwd := true }) :=
  ⟨(C5_hashed_retry_outcome loginEnvHashedFail
      { password := "pwd", hashed_pwd := false }
      (by decide) (by decide) (by decide) "abcd" rfl (by decide)).1 (by decide),
    (C5_hashed_retry_outcome loginEnvHashedOk
      { password := "pwd", hashed_pwd := false }
      (by decide) (by decide) (by decide) "salt" rfl (by decide)).2
      (by decide) (by decide)⟩

/-- Looking a key up in a key-preserving mapped association list. -/
theorem lookup_map_keyed {β γ : Type} (g : Nat → β → γ) (i : Nat) :
    (l : List (Nat × β)) →
    List.lookup i (l.map fun kv => (kv.1, g kv.1 kv.2)) =
      Option.map (g i) (List.lookup i l)
  | [] => rfl
  | (k, v) :: t => by
    simp only [List.map, List.lookup]
    cases hik : i == k
    case false => simp [lookup_map_keyed g i t]
    case true =>
      have hk : i = k := eq_of_beq hik
      subst hk
      simp

/-- A key occurring among the first components of an association list has a
lookup value. -/
theorem lookup_isSome_of_mem_keys {β : Type} (i : Nat) :
    (l : List (Nat × β)) → i ∈ l.map Prod.fst → ∃ v, List.lookup i l = some v
  | [], h => absurd h (by simp)
  | (k, v) :: t, h => by
    by_cases hik : i = k
    · subst hik
      exact ⟨v, by simp [List.lookup]⟩
    · have ht : i ∈ t.map Prod.fst := by
        rcases List.mem_cons.mp h with h0 | h0
        · exact absurd h0 hik
        · exact h0
      obtain ⟨w, hw⟩ := lookup_isSome_of_mem_keys i t ht
      refine ⟨w, ?_⟩
      have hbeq : (i == k) = false := by simp [hik]
      simp [List.lookup, hbeq, hw]

/-- `update_device_list` never changes `extended_data`. -/
theorem update_device_list_extended (devices : List (Nat × String)) (st : ConnState) :
    (update_device_list devices st).2.extended_data = st.extended_data := by
  unfold update_device_list
  split <;> rfl

/-- One refresh preserves the enabled flag of every id in the fetched
directory. -/
theorem update_device_list_keeps_enabled (devices : List (Nat × String))
    (st : ConnState) (he : st.extended_data = true) (i : Nat)
    (hi : i ∈ devices.map Prod.fst) :
    (device (update_device_list devices st).2 i).enabled = (device st i).enabled := by
  have hne : ¬(st.extended_data = false) := by simp [he]
  obtain ⟨v, hv⟩ := lookup_isSome_of_mem_keys i devices hi
  have hdev : device (update_device_list devices st).2 i =
      (List.lookup i (List.map (fun kv =>
        (kv.1, { name := kv.2, enabled := (device st kv.1).enabled : InverterData }))
        devices)).getD {} := by
    unfold update_device_list
    rw [if_neg hne]
    rfl
  rw [hdev,
    lookup_map_keyed
      (fun k v => { name := v, enabled := (device st k).enabled : InverterData })
      i devices,
    hv]
  rfl

/-- C4 (counterexample): a known, enabled device omitted from the fetched
device directory is dropped from the cache outright — the refreshed list is
built solely from the fetch, so its name and enabled flag are lost and the
device reads back as disabled default, refuting the claimed retention. -/
theorem C4_counterexample :
    (device connDev1 1).enabled = true ∧
    (update_device_list [] connDev1).1 = [] ∧
    List.lookup 1 (update_device_list [] connDev1).2.device_list = none ∧
    (device (update_device_list [] connDev1).2 1).enabled = false := by
  decide

/-- C4 (amended): `update_device_list` preserves the previously set enabled
flag of every device id present in the fetched directory — one refresh or
two never default such a device back to disabled — but an id omitted from
the fetched directory is removed from the cached list rather than retained. -/
theorem C4_enabled_preserved_for_fetched_ids (devices : List (Nat × String))
    (st : ConnState) (he : st.extended_data = true) (i : Nat)
    (hi : i ∈ devices.map Prod.fst) :
    (device (update_device_list devices st).2 i).enabled = (device st i).enabled ∧
    (device (update_device_list devices ((update_device_list devices st).2)).2 i).enabled
      = (device st i).enabled := by
  have h1 := update_device_list_keeps_enabled devices st he i hi
  have he2 : (update_device_list devices st).2.extended_data = true := by
    rw [update_device_list_extended, he]
  have h2 := update_device_list_keeps_enabled devices _ he2 i hi
  exact ⟨h1, h2.trans h1⟩

/-- C4 (witness): device 3 is enabled, appears in the fetched directory, and
stays enabled across one and two refreshes. -/
theorem C4_witness :
    (3 ∈ [(3, "Inv 3")].map Prod.fst) ∧
    (device connDev3 3).enabled = true ∧
    ((device (update_device_list [(3, "Inv 3")] connDev3).2 3).enabled
        = (device connDev3 3).enabled ∧
      (device (update_device_list [(3, "Inv 3")]
          ((update_device_list [(3, "Inv 3")] connDev3).2)).2 3).enabled
        = (device connDev3 3).enabled) :=
  ⟨by decide, by decide,
    C4_enabled_preserved_for_fetched_ids [(3, "Inv 3")] connDev3 rfl 3 (by decide)⟩

/-- The derived-metrics block does not change `power_ac`. -/
theorem dm_power_ac (d0 : SolarlogData) :
    (derived_metrics d0).power_ac = d0.power_ac := by
  simp only [derived_metrics]
  split_ifs <;> rfl

/-- The derived-metrics block does not change `power_dc`. -/
theorem dm_power_dc (d0 : SolarlogData) :
    (derived_metrics d0).power_dc = d0.power_dc := by
  simp only [derived_metrics]
  split_ifs <;> rfl

/-- The derived-metrics block does not change `consumption_ac`. -/
theorem dm_consumption_ac (d0 : SolarlogData) :
    (derived_metrics d0).consumption_ac = d0.consumption_ac := by
  simp only [derived_metrics]
  split_ifs <;> rfl

/-- The derived-metrics block does not change `total_power`. -/
theorem dm_total_power (d0 : SolarlogData) :
    (derived_metrics d0).total_power = d0.total_power := by
  simp only [derived_metrics]
  split_ifs <;> rfl

/-- `alternator_loss` is always set to `power_dc - power_ac`. -/
theorem dm_alternator_loss (d0 : SolarlogData) :
    (derived_metrics d0).alternator_loss = d0.power_dc - d0.power_ac := by
  simp only [derived_metrics]
  split_ifs <;> rfl

/-- With non-zero DC power, `efficiency` gets the documented formula. -/
theorem dm_efficiency_of_ne (d0 : SolarlogData) (h : d0.power_dc ≠ 0) :
    (derived_metrics d0).efficiency = some (d0.power_ac / d0.power_dc * 100) := by
  simp only [derived_metrics]
  split_ifs <;> simp_all

/-- With zero DC power, `efficiency` is left untouched. -/
theorem dm_efficiency_of_eq (d0 : SolarlogData) (h : d0.power_dc = 0) :
    (derived_metrics d0).efficiency = d0.efficiency := by
  simp only [derived_metrics]
  split_ifs <;> simp_all

/-- With non-zero AC power, `usage` gets the documented formula. -/
theorem dm_usage_of_ne (d0 : SolarlogData) (h : d0.power_ac ≠ 0) :
    (derived_metrics d0).usage = some (d0.consumption_ac / d0.power_ac * 100) := by
  simp only [derived_metrics]
  split_ifs <;> simp_all

/-- With non-zero AC power, `power_available` is AC power less consumption. -/
theorem dm_power_available_of_ne (d0 : SolarlogData) (h : d0.power_ac ≠ 0) :
    (derived_metrics d0).power_available = d0.power_ac - d0.consumption_ac := by
  simp only [derived_metrics]
  split_ifs <;> simp_all

/-- With zero AC power, `usage` defaults to 0. -/
theorem dm_usage_of_eq (d0 : SolarlogData) (h : d0.power_ac = 0) :
    (derived_metrics d0).usage = some 0 := by
  simp only [derived_metrics]
  split_ifs <;> simp_all

/-- With zero AC power, `power_available` defaults to 0. -/
theorem dm_power_available_of_eq (d0 : SolarlogData) (h : d0.power_ac = 0) :
    (derived_metrics d0).power_available = 0 := by
  simp only [derived_metrics]
  split_ifs <;> simp_all

/-- With non-zero installed power, `capacity` gets the documented formula. -/
theorem dm_capacity_of_ne (d0 : SolarlogData) (h : d0.total_power ≠ 0) :
    (derived_metrics d0).capacity = some (d0.power_dc / d0.total_power * 100) := by
  simp only [derived_metrics]
  split_ifs <;> simp_all

/-- With zero installed power, `capacity` is left untouched. -/
theorem dm_capacity_of_eq (d0 : SolarlogData) (h : d0.total_power = 0) :
    (derived_metrics d0).capacity = d0.capacity := by
  simp only [derived_metrics]
  split_ifs <;> simp_all

/-- On a non-sentinel timestamp, `update_data` succeeds with the derived
metrics computed on a snapshot whose base fields come straight from the
basic-data payload and whose `efficiency`/`capacity` start absent. -/
theorem update_data_ok_shape (env : UpdateEnv) (st : ConnState)
    (h : strptimeYear env.basicRaw.date_yy ≠ 1999) :
    ∃ pre, (update_data env st).1 = Except.ok (derived_metrics pre) ∧
      pre.power_ac = env.basicRaw.k101 ∧
      pre.power_dc = env.basicRaw.k102 ∧
      pre.consumption_ac = env.basicRaw.k110 ∧
      pre.total_power = env.basicRaw.k116 ∧
      pre.efficiency = none ∧
      pre.capacity = none := by
  have hy : ¬((get_basic_data env.basicRaw).last_updated.year = 1999) := h
  simp only [update_data]
  rw [if_neg hy]
  by_cases he : st.extended_data = true
  · rw [if_pos he]
    by_cases hd : st.device_list = []
    · rw [if_neg (not_not_intro hd)]
      refine ⟨_, rfl, ?_, ?_, ?_, ?_, ?_, ?_⟩ <;> cases env.energyResp <;> rfl
    · rw [if_pos hd]
      refine ⟨_, rfl, ?_, ?_, ?_, ?_, ?_, ?_⟩ <;> cases env.energyResp <;> rfl
  · rw [if_neg he]
    exact ⟨_, rfl, rfl, rfl, rfl, rfl, rfl, rfl⟩

/-- C2: a basic-data response parsing to the restart-sentinel year 1999 makes
`update_data` raise `SolarLogUpdateError` having issued only the basic-data
query — no energy, inverter, or battery fetch — with the connector state
unchanged and no snapshot (hence no derived field) produced. -/
theorem C2_restart_sentinel_aborts (env : UpdateEnv) (st : ConnState)
    (h : strptimeYear env.basicRaw.date_yy = 1999) :
    update_data env st =
      (Except.error (SolarLogError.updateError
          "Invalid data returned (can happen after Solarlog restart)."),
        [Request.basicData], st) := by
  have hy : (get_basic_data env.basicRaw).last_updated.year = 1999 := h
  simp only [update_data]
  rw [if_pos hy]

/-- C2 (witness): the restart payload dated 01.01.99 aborts the update. -/
theorem C2_witness :
    strptimeYear updateEnvRestart.basicRaw.date_yy = 1999 ∧
    update_data updateEnvRestart connSample =
      (Except.error (SolarLogError.updateError
          "Invalid data returned (can happen after Solarlog restart)."),
        [Request.basicData], connSample) :=
  ⟨by decide, C2_restart_sentinel_aborts updateEnvRestart connSample (by decide)⟩

/-- C1: every successful `update_data` call yields a snapshot whose derived
metrics satisfy the exact algebraic formulas when the denominators are
non-zero, and the documented defaults otherwise: `efficiency` and `capacity`
stay absent on a zero denominator, `usage` and `power_available` default to
0 on zero AC power. -/
theorem C1_derived_metric_formulas (env : UpdateEnv) (st : ConnState)
    (h : strptimeYear env.basicRaw.date_yy ≠ 1999) :
    ∃ d, (update_data env st).1 = Except.ok d ∧
      d.power_ac = env.basicRaw.k101 ∧
      d.power_dc = env.basicRaw.k102 ∧
      d.consumption_ac = env.basicRaw.k110 ∧
      d.total_power = env.basicRaw.k116 ∧
      d.alternator_loss = d.power_dc - d.power_ac ∧
      (d.power_dc ≠ 0 → d.efficiency = some (d.power_ac / d.power_dc * 100)) ∧
      (d.power_dc = 0 → d.efficiency = none) ∧
      (d.power_ac ≠ 0 → d.usage = some (d.consumption_ac / d.power_ac * 100) ∧
        d.power_available = d.power_ac - d.consumption_ac) ∧
      (d.power_ac = 0 → d.usage = some 0 ∧ d.power_available = 0) ∧
      (d.total_power ≠ 0 → d.capacity = some (d.power_dc / d.total_power * 100)) ∧
      (d.total_power = 0 → d.capacity = none) := by
  obtain ⟨pre, hok, hpa, hpd, hca, htp, heff, hcap⟩ := update_data_ok_shape env st h
  refine ⟨derived_metrics pre, hok, ?_, ?_, ?_, ?_, ?_, ?_, ?_, ?_, ?_, ?_, ?_⟩
  · rw [dm_power_ac, hpa]
  · rw [dm_power_dc, hpd]
  · rw [dm_consumption_ac, hca]
  · rw [dm_total_power, htp]
  · rw [dm_alternator_loss, dm_power_dc, dm_power_ac]
  · intro hx
    rw [dm_power_dc] at hx
    rw [dm_efficiency_of_ne pre hx, dm_power_ac, dm_power_dc]
  · intro hx
    rw [dm_power_dc] at hx
    rw [dm_efficiency_of_eq pre hx, heff]
  · intro hx
    rw [dm_power_ac] at hx
    exact ⟨by rw [dm_usage_of_ne pre hx, dm_consumption_ac, dm_power_ac],
      by rw [dm_power_available_of_ne pre hx, dm_power_ac, dm_consumption_ac]⟩
  · intro hx
    rw [dm_power_ac] at hx
    exact ⟨dm_usage_of_eq pre hx, dm_power_available_of_eq pre hx⟩
  · intro hx
    rw [dm_total_power] at hx
    rw [dm_capacity_of_ne pre hx, dm_power_dc, dm_total_power]
  · intro hx
    rw [dm_total_power] at hx
    rw [dm_capacity_of_eq pre hx, hcap]

/-- C1 (witness): the sample poll dated 12.10.25 instantiates the derived
metric properties. -/
theorem C1_witness :
    strptimeYear updateEnvSample.basicRaw.date_yy ≠ 1999 ∧
    (∃ d, (update_data updateEnvSample connSample).1 = Except.ok d ∧
      d.power_ac = updateEnvSample.basicRaw.k101 ∧
      d.power_dc = updateEnvSample.basicRaw.k102 ∧
      d.consumption_ac = updateEnvSample.basicRaw.k110 ∧
      d.total_power = updateEnvSample.basicRaw.k116 ∧
      d.alternator_loss = d.power_dc - d.power_ac ∧
      (d.power_dc ≠ 0 → d.efficiency = some (d.power_ac / d.power_dc * 100)) ∧
      (d.power_dc = 0 → d.efficiency = none) ∧
      (d.power_ac ≠ 0 → d.usage = some (d.consumption_ac / d.power_ac * 100) ∧
        d.power_available = d.power_ac - d.consumption_ac) ∧
      (d.power_ac = 0 → d.usage = some 0 ∧ d.power_available = 0) ∧
      (d.total_power ≠ 0 → d.capacity = some (d.power_dc / d.total_power * 100)) ∧
      (d.total_power = 0 → d.capacity = none)) :=
  ⟨by decide, C1_derived_metric_formulas updateEnvSample connSample (by decide)⟩

end SolarlogCli
